import Mathlib

/-!
Verification of the pastecase clipboard manager (src/app.js and the two
unnamed revisions of the same file) against its specification.

The embedding models:
* the `Clip` record shape (spec §3, built in `PastecaseDB.saveClip`);
* the IndexedDB-backed record store (`PastecaseDB`): `saveClip`,
  `getAllClips`, `deleteClip`, `searchClips`;
* the view derivation in `PastecaseApp.renderClips` (search filter,
  category filter, sort);
* the save paths `saveTextClip`, `saveImageClip`, and the drag-and-drop
  ingestion `handleDrop` / `processDroppedFile`.

JavaScript string truthiness (`""` and `null`/`undefined` are falsy) is
modelled by `strTruthy` on `Option String`; optional record fields are
`Option` fields; ISO-8601 `createdAt` timestamps are modelled as `Nat`
(their comparison in `renderClips` goes through `new Date(...)`
subtraction, i.e. numeric order).
-/

namespace Pastecase

/-- A persisted clip record (spec §3; fields assembled in
`PastecaseDB.saveClip`, src/app.js lines 43-58, from the data passed by
the save paths). -/
structure Clip where
  id : Nat
  type : String
  content : String
  tags : List String
  memo : Option String
  filename : Option String
  filesize : Option Nat
  mimeType : Option String
  createdAt : Nat
  updatedAt : Nat
deriving DecidableEq

/-- JavaScript truthiness of an optional string: `undefined`/`null` and
`""` are falsy, every other string is truthy. -/
def strTruthy : Option String → Bool
  | none => false
  | some s => !(s == "")

/-- `String.prototype.toLowerCase()`: lower-case every character. -/
def jsToLower (s : String) : String := String.mk (s.data.map Char.toLower)

/-- `hay.includes(needle)`: substring containment. -/
def jsIncludes (hay needle : String) : Bool :=
  decide (needle.data <:+: hay.data)

/-- `String.prototype.trim()`: strip leading and trailing whitespace. -/
def jsTrim (s : String) : String :=
  String.mk (((s.data.dropWhile Char.isWhitespace).reverse.dropWhile
    Char.isWhitespace).reverse)

/-- `s.startsWith(p)`. -/
def jsStartsWith (s p : String) : Bool := decide (p.data <+: s.data)

/-- `s.endsWith(p)`. -/
def jsEndsWith (s p : String) : Bool := decide (p.data <:+ s.data)

def jsSplitAux (sep : Char) : List Char → List Char → List String
  | [], acc => [String.mk acc.reverse]
  | c :: rest, acc =>
    if c = sep then String.mk acc.reverse :: jsSplitAux sep rest []
    else jsSplitAux sep rest (c :: acc)

/-- `s.split(sep)` for a one-character separator: the pieces of `s`
between occurrences of `sep` (an empty string yields `[""]`, as in
ECMAScript). -/
def jsSplit (s : String) (sep : Char) : List String :=
  jsSplitAux sep s.data []

/-- The shared matching expression of `PastecaseDB.searchClips`
(src/app.js lines 91-95) and the search filter of
`PastecaseApp.renderClips` (src/app.js lines 198-207): case-insensitive
substring match against `content`, against `memo` when `memo` is truthy,
or against any tag. -/
def clipMatchesSearch (q : String) (clip : Clip) : Bool :=
  jsIncludes (jsToLower clip.content) (jsToLower q) ||
  (strTruthy clip.memo && jsIncludes (jsToLower (clip.memo.getD "")) (jsToLower q)) ||
  clip.tags.any (fun tag => jsIncludes (jsToLower tag) (jsToLower q))

/-- The record store state behind `PastecaseDB`: the `clips` object
store plus the IndexedDB auto-increment key generator (`nextId`). -/
structure Store where
  nextId : Nat
  clips : List Clip
deriving DecidableEq

/-- A fresh store: IndexedDB key generators start at 1. -/
def emptyStore : Store := { nextId := 1, clips := [] }

/-- The record passed to `PastecaseDB.saveClip` by a caller, before the
store adds timestamps and an id. -/
structure ClipData where
  type : String
  content : String
  tags : List String
  memo : Option String
  filename : Option String
  filesize : Option Nat
  mimeType : Option String
deriving DecidableEq

/-- `PastecaseDB.saveClip` (src/app.js lines 43-58): spreads the caller
record, sets `createdAt` and `updatedAt` to the current time, and adds
it to the store; the promise resolves with the new record id.
Modelled from the spec: the id assignment itself is IndexedDB
`autoIncrement` (browser engine, not in src/) — per the spec, ids are
"store-assigned, monotonically increasing" — embedded as the `nextId`
counter. -/
def saveClip (store : Store) (now : Nat) (d : ClipData) : Store × Nat :=
  let clip : Clip :=
    { id := store.nextId
      type := d.type
      content := d.content
      tags := d.tags
      memo := d.memo
      filename := d.filename
      filesize := d.filesize
      mimeType := d.mimeType
      createdAt := now
      updatedAt := now }
  ({ nextId := store.nextId + 1, clips := store.clips ++ [clip] }, store.nextId)

/-- `PastecaseDB.getAllClips` (src/app.js lines 61-70): returns every
record in the store. -/
def getAllClips (store : Store) : List Clip := store.clips

/-- `PastecaseDB.deleteClip` (src/app.js lines 73-82): removes the
record with the given key. Modelled from the spec: the underlying
IndexedDB `store.delete(id)` request (browser engine, not in src/)
succeeds whether or not the key is present — the spec's testable
property says deleting a nonexistent id "does not throw to the caller
... (no-op)". -/
def deleteClip (store : Store) (id : Nat) : Store :=
  { store with clips := store.clips.filter (fun c => !(c.id == id)) }

/-- `PastecaseDB.searchClips` (src/app.js lines 85-99): filters
`getAllClips()` in memory; a clip passes when it matches the type filter
(skipped when `type` is falsy) and the query (skipped when `query` is
falsy). -/
def searchClips (clips : List Clip) (query type : Option String) : List Clip :=
  clips.filter (fun clip =>
    let matchesType : Bool := !(strTruthy type) || clip.type == type.getD ""
    let matchesQuery : Bool := !(strTruthy query) || clipMatchesSearch (query.getD "") clip
    matchesType && matchesQuery)

/-- Search step of `PastecaseApp.renderClips` (src/app.js lines
195-209): when `currentSearch` is truthy, keep the clips matching it. -/
def applySearch (currentSearch : String) (clips : List Clip) : List Clip :=
  if currentSearch == "" then clips
  else clips.filter (fun clip => clipMatchesSearch currentSearch clip)

/-- Category step of `PastecaseApp.renderClips` (src/app.js lines
212-216): when `currentFilter` is truthy, keep the clips of that type. -/
def applyCategoryFilter (currentFilter : String) (clips : List Clip) : List Clip :=
  if currentFilter == "" then clips
  else clips.filter (fun clip => clip.type == currentFilter)

/-- The comparator of `PastecaseApp.renderClips` (src/app.js lines
219-223) as an order relation: `dateB - dateA <= 0` for `"newest"`
(descending `createdAt`), `dateA - dateB <= 0` otherwise (ascending). -/
def sortRel (currentSort : String) (a b : Clip) : Prop :=
  if currentSort = "newest" then b.createdAt ≤ a.createdAt
  else a.createdAt ≤ b.createdAt

instance (s : String) : DecidableRel (sortRel s) := fun a b => by
  unfold sortRel
  exact inferInstance

instance (s : String) : IsTotal Clip (sortRel s) where
  total a b := by
    unfold sortRel
    split
    · exact (Nat.le_total b.createdAt a.createdAt)
    · exact (Nat.le_total a.createdAt b.createdAt)

instance (s : String) : IsTrans Clip (sortRel s) where
  trans a b c hab hbc := by
    unfold sortRel at *
    by_cases h : s = "newest"
    · rw [if_pos h] at hab hbc ⊢
      exact Nat.le_trans hbc hab
    · rw [if_neg h] at hab hbc ⊢
      exact Nat.le_trans hab hbc

/-- Sort step of `PastecaseApp.renderClips` (src/app.js lines 219-223):
`Array.prototype.sort` with the `createdAt` comparator. The ECMAScript
sort contract (sorted per comparator, stable) is realised by a stable
insertion sort over `sortRel`. -/
def applySort (currentSort : String) (clips : List Clip) : List Clip :=
  List.insertionSort (sortRel currentSort) clips

/-- The full view derivation of `PastecaseApp.renderClips` (src/app.js
lines 188-236): search filter, then category filter, then sort. -/
def deriveView (currentSearch currentFilter currentSort : String)
    (clips : List Clip) : List Clip :=
  applySort currentSort (applyCategoryFilter currentFilter (applySearch currentSearch clips))

/-- Tag parsing shared by the save paths (src/app.js lines 454-458):
split the input on commas, trim each piece, drop the falsy (empty)
pieces. -/
def parseTags (s : String) : List String :=
  ((jsSplit s ',').map jsTrim).filter (fun tag => !(tag == ""))

/-- A `File` object handed to the app by the browser (file input or
drag-and-drop): its name, MIME type and raw bytes. `File.size` is the
byte count. -/
structure JsFile where
  name : String
  mime : String
  bytes : List Nat
deriving DecidableEq

def JsFile.size (f : JsFile) : Nat := f.bytes.length

def base64Table : List Char :=
  "ABCDEFGHIJKLMNOPQRSTUVWXYZabcdefghijklmnopqrstuvwxyz0123456789+/".data

def base64Digit (n : Nat) : Char := base64Table.getD n 'A'

def base64Chunks : List Nat → List Char
  | [] => []
  | [b1] =>
    [base64Digit (b1 / 4), base64Digit (b1 % 4 * 16), '=', '=']
  | [b1, b2] =>
    [base64Digit (b1 / 4), base64Digit (b1 % 4 * 16 + b2 / 16),
     base64Digit (b2 % 16 * 4), '=']
  | b1 :: b2 :: b3 :: rest =>
    base64Digit (b1 / 4) :: base64Digit (b1 % 4 * 16 + b2 / 16) ::
    base64Digit (b2 % 16 * 4 + b3 / 64) :: base64Digit (b3 % 64) ::
    base64Chunks rest

/-- Modelled from the spec: `FileReader.readAsDataURL` is a browser API
not in src/; per the spec, image content is "a base64-encoded data
URI", i.e. `data:<mime>;base64,<base64 of the file bytes>`. -/
def readAsDataURL (f : JsFile) : String :=
  "data:" ++ f.mime ++ ";base64," ++ String.mk (base64Chunks f.bytes)

/-- Modelled from the spec: `FileReader.readAsText` is a browser API not
in src/; it decodes the file bytes into the file's text. An empty file
decodes to `""`. -/
def readAsText (f : JsFile) : String :=
  String.mk (f.bytes.map Char.ofNat)

/-- Outcome reported to the user by a save path: the success path, or a
validation error surfaced before any store call. -/
inductive SaveOutcome where
  | saved (id : Nat)
  | validationError (msg : String)
deriving DecidableEq

/-- `PastecaseApp.saveTextClip` (src/app.js lines 452-482): trim the
content input; when it is falsy, show a validation error and return
without touching the store; otherwise save a `text` clip built from the
trimmed content, parsed tags and trimmed memo. -/
def saveTextClip (store : Store) (now : Nat)
    (contentInput tagsInput memoInput : String) : Store × SaveOutcome :=
  let content := jsTrim contentInput
  let tags := parseTags tagsInput
  let memo := jsTrim memoInput
  if content == "" then
    (store, .validationError "Please enter some text")
  else
    let r := saveClip store now
      { type := "text", content := content, tags := tags, memo := some memo,
        filename := none, filesize := none, mimeType := none }
    (r.1, .saved r.2)

/-- `PastecaseApp.saveImageClip` (src/app.js lines 485-529): when no
file is selected, show a validation error and return without touching
the store; otherwise read the file as a data URI and save an `image`
clip carrying the file name and size. -/
def saveImageClip (store : Store) (now : Nat) (fileInput : Option JsFile)
    (tagsInput memoInput : String) : Store × SaveOutcome :=
  let tags := parseTags tagsInput
  let memo := jsTrim memoInput
  match fileInput with
  | none => (store, .validationError "Please select an image file")
  | some file =>
    let r := saveClip store now
      { type := "image", content := readAsDataURL file, tags := tags,
        memo := some memo, filename := some file.name,
        filesize := some file.size, mimeType := none }
    (r.1, .saved r.2)

/-- Outcome of processing one dropped file. -/
inductive DropOutcome where
  | savedImage (id : Nat)
  | savedText (id : Nat)
  | unsupported (msg : String)
deriving DecidableEq

/-- `PastecaseApp.processDroppedFile` (src/unnamed/part_001 lines
815-872): a file whose MIME type starts with `image/` is saved as an
`image` clip (data URI content); otherwise a file whose MIME type starts
with `text/` or equals `application/json`, or whose name ends in `.txt`
or `.md`, is saved as a `text` clip (text content); any other file is
rejected with a user-visible error and nothing is saved. -/
def processDroppedFile (store : Store) (now : Nat) (file : JsFile) :
    Store × DropOutcome :=
  let mimeType := file.mime
  let fileName := file.name
  let fileSize := file.size
  if jsStartsWith mimeType "image/" then
    let r := saveClip store now
      { type := "image", content := readAsDataURL file,
        tags := ["dropped-file"], memo := some ("Dropped image: " ++ fileName),
        filename := some fileName, filesize := some fileSize,
        mimeType := some mimeType }
    (r.1, .savedImage r.2)
  else if jsStartsWith mimeType "text/" || mimeType == "application/json"
      || jsEndsWith fileName ".txt" || jsEndsWith fileName ".md" then
    let r := saveClip store now
      { type := "text", content := readAsText file,
        tags := ["dropped-file", "text-file"],
        memo := some ("Dropped file: " ++ fileName),
        filename := some fileName, filesize := some fileSize,
        mimeType := some mimeType }
    (r.1, .savedText r.2)
  else
    (store, .unsupported ("Unsupported file type: " ++
      (if mimeType == "" then "unknown" else mimeType)))

/-- `PastecaseApp.handleDrop` (src/unnamed/part_001 lines 806-812):
process every dropped file in order, collecting each file's outcome;
one file's rejection does not stop the loop. -/
def handleDrop (store : Store) (now : Nat) (files : List JsFile) :
    Store × List DropOutcome :=
  files.foldl
    (fun acc file =>
      let r := processDroppedFile acc.1 now file
      (r.1, acc.2 ++ [r.2]))
    (store, [])

/-- Saving a batch of records through `PastecaseDB.saveClip`. -/
def saveAll (store : Store) (now : Nat) (ds : List ClipData) : Store :=
  ds.foldl (fun st d => (saveClip st now d).1) store

/-- A sample stored text clip used by the concrete witnesses. -/
def helloClip : Clip :=
  { id := 1, type := "text", content := "hello world", tags := ["alpha"],
    memo := none, filename := none, filesize := none, mimeType := none,
    createdAt := 10, updatedAt := 10 }

/-- A sample clip whose query match can only come from a tag. -/
def taggedClip : Clip :=
  { id := 2, type := "text", content := "xyz", tags := ["recipe-book"],
    memo := some "", filename := none, filesize := none, mimeType := none,
    createdAt := 20, updatedAt := 20 }

/-- A sample stored image clip. -/
def imageClip : Clip :=
  { id := 3, type := "image", content := "data:image/png;base64,AQID",
    tags := [], memo := some "shot", filename := some "p.png",
    filesize := some 3, mimeType := some "image/png",
    createdAt := 30, updatedAt := 30 }

/-! ## Helper lemmas -/

theorem jsIncludes_empty_needle (s : String) : jsIncludes s "" = true := by
  rw [jsIncludes, decide_eq_true_eq]
  exact ⟨[], s.data, by simp⟩

theorem jsToLower_empty : jsToLower "" = "" := rfl

theorem strTruthy_none : strTruthy none = false := rfl

theorem strTruthy_some (s : String) : strTruthy (some s) = !(s == "") := rfl

theorem clipMatchesSearch_iff (q : String) (c : Clip) :
    clipMatchesSearch q c = true ↔
      (jsIncludes (jsToLower c.content) (jsToLower q) = true ∨
       (strTruthy c.memo = true ∧
         jsIncludes (jsToLower (c.memo.getD "")) (jsToLower q) = true) ∨
       ∃ tag ∈ c.tags, jsIncludes (jsToLower tag) (jsToLower q) = true) := by
  simp [clipMatchesSearch, List.any_eq_true, or_assoc]

theorem clipMatchesSearch_empty (c : Clip) : clipMatchesSearch "" c = true := by
  rw [clipMatchesSearch_iff]
  exact Or.inl (by rw [jsToLower_empty]; exact jsIncludes_empty_needle _)

theorem queryGuard_iff (q : String) (c : Clip) :
    (((q == "") || clipMatchesSearch q c) = true) ↔
      (jsIncludes (jsToLower c.content) (jsToLower q) = true ∨
       (strTruthy c.memo = true ∧
         jsIncludes (jsToLower (c.memo.getD "")) (jsToLower q) = true) ∨
       ∃ tag ∈ c.tags, jsIncludes (jsToLower tag) (jsToLower q) = true) := by
  by_cases hq : q = ""
  · subst hq
    rw [show (("" == "") || clipMatchesSearch "" c) = true by
      rw [clipMatchesSearch_empty]; rfl]
    simp only [true_iff]
    exact Or.inl (by rw [jsToLower_empty]; exact jsIncludes_empty_needle _)
  · have hf : (q == "") = false := by simp [hq]
    rw [hf, Bool.false_or, clipMatchesSearch_iff]

theorem searchClips_mem (clips : List Clip) (query type : Option String)
    (c : Clip) :
    c ∈ searchClips clips query type ↔ c ∈ clips ∧
      ((!(strTruthy type) || c.type == type.getD "") &&
       (!(strTruthy query) || clipMatchesSearch (query.getD "") c)) = true := by
  unfold searchClips
  exact List.mem_filter

/-! ## Claims -/

/-- C1: for every stored clip set, query string and optional type
filter, `searchClips` returns exactly the clips that (a) have the given
type when a type filter is set, and (b) match the query
case-insensitively against content, or against memo when a memo is
present (truthy), or against at least one tag; in particular the
right-to-left direction of the second disjunction admits a clip whose
only match is a tag. -/
theorem searchClips_characterisation (clips : List Clip) (q t : String)
    (c : Clip) (ht : t ≠ "") :
    (c ∈ searchClips clips (some q) none ↔ c ∈ clips ∧
      (jsIncludes (jsToLower c.content) (jsToLower q) = true ∨
       (strTruthy c.memo = true ∧
         jsIncludes (jsToLower (c.memo.getD "")) (jsToLower q) = true) ∨
       ∃ tag ∈ c.tags, jsIncludes (jsToLower tag) (jsToLower q) = true)) ∧
    (c ∈ searchClips clips (some q) (some t) ↔ c ∈ clips ∧ c.type = t ∧
      (jsIncludes (jsToLower c.content) (jsToLower q) = true ∨
       (strTruthy c.memo = true ∧
         jsIncludes (jsToLower (c.memo.getD "")) (jsToLower q) = true) ∨
       ∃ tag ∈ c.tags, jsIncludes (jsToLower tag) (jsToLower q) = true)) := by
  have hf : (t == "") = false := by simp [ht]
  constructor
  · rw [searchClips_mem]
    simp only [strTruthy_none, strTruthy_some, Bool.not_false, Bool.true_or,
      Bool.true_and, Bool.not_not, Option.getD_some]
    rw [queryGuard_iff]
  · rw [searchClips_mem]
    simp only [strTruthy_none, strTruthy_some, Bool.not_not, Option.getD_some,
      hf, Bool.false_or, Bool.and_eq_true, beq_iff_eq]
    rw [queryGuard_iff]

/-- C1 witness: the clip with content `"hello world"` is found by the
case-insensitive query `"ELL"` under the `"text"` type filter, and
`taggedClip` (content `"xyz"`) is found by the query `"recipe"` only
through its tag. -/
theorem searchClips_characterisation_witness :
    helloClip ∈ searchClips [helloClip, taggedClip] (some "ELL") (some "text") ∧
    taggedClip ∈ searchClips [helloClip, taggedClip] (some "recipe") none := by
  constructor
  · exact (searchClips_characterisation [helloClip, taggedClip] "ELL" "text"
      helloClip (by decide)).2.mpr ⟨by decide, by decide, Or.inl (by decide)⟩
  · exact (searchClips_characterisation [helloClip, taggedClip] "recipe" "text"
      taggedClip (by decide)).1.mpr
      ⟨by decide, Or.inr (Or.inr ⟨"recipe-book", by decide, by decide⟩)⟩

/-- C9: a search with an empty (or null) query matches every clip —
`searchClips` with a falsy query and no type filter returns all clips,
and with a truthy type filter returns exactly the clips of that type;
the query test is short-circuited by `!query` rather than evaluated. -/
theorem searchClips_empty_query (clips : List Clip) (t : String) (ht : t ≠ "") :
    searchClips clips none none = clips ∧
    searchClips clips (some "") none = clips ∧
    searchClips clips none (some t) =
      clips.filter (fun c => c.type == t) ∧
    searchClips clips (some "") (some t) =
      clips.filter (fun c => c.type == t) := by
  have hf : (t == "") = false := by simp [ht]
  refine ⟨?_, ?_, ?_, ?_⟩ <;>
    simp [searchClips, strTruthy_none, strTruthy_some, hf]

/-- C9 witness: on a two-clip store, the empty searches return both
clips, and the type-filtered empty searches return only the image
clip. -/
theorem searchClips_empty_query_witness :
    searchClips [helloClip, imageClip] none none = [helloClip, imageClip] ∧
    searchClips [helloClip, imageClip] (some "") none =
      [helloClip, imageClip] ∧
    searchClips [helloClip, imageClip] none (some "image") =
      [helloClip, imageClip].filter (fun c => c.type == "image") ∧
    searchClips [helloClip, imageClip] (some "") (some "image") =
      [helloClip, imageClip].filter (fun c => c.type == "image") :=
  searchClips_empty_query [helloClip, imageClip] "image" (by decide)

/-- C10: the search predicate is total by construction, and on a clip
whose memo is absent (`none`) or empty (`some ""`) the memo disjunct is
switched off by the truthiness guard, so the clip matches a non-empty
query exactly when its content or one of its tags contains it
case-insensitively. -/
theorem clipMatchesSearch_falsy_memo (q : String) (c : Clip) (_hq : q ≠ "")
    (hm : strTruthy c.memo = false) :
    clipMatchesSearch q c =
      (jsIncludes (jsToLower c.content) (jsToLower q) ||
       c.tags.any (fun tag => jsIncludes (jsToLower tag) (jsToLower q))) := by
  rw [clipMatchesSearch, hm]
  simp

/-- C10 witness: the memoless clip and the empty-memo clip both reduce
to content-or-tag matching for the query `"recipe"`. -/
theorem clipMatchesSearch_falsy_memo_witness :
    clipMatchesSearch "recipe" helloClip =
      (jsIncludes (jsToLower helloClip.content) (jsToLower "recipe") ||
       helloClip.tags.any
         (fun tag => jsIncludes (jsToLower tag) (jsToLower "recipe"))) ∧
    clipMatchesSearch "recipe" taggedClip =
      (jsIncludes (jsToLower taggedClip.content) (jsToLower "recipe") ||
       taggedClip.tags.any
         (fun tag => jsIncludes (jsToLower tag) (jsToLower "recipe"))) :=
  ⟨clipMatchesSearch_falsy_memo "recipe" helloClip (by decide) (by decide),
   clipMatchesSearch_falsy_memo "recipe" taggedClip (by decide) (by decide)⟩

theorem readAsDataURL_ne_empty (f : JsFile) : readAsDataURL f ≠ "" := by
  intro h
  have hd : (readAsDataURL f).data = ("" : String).data := congrArg String.data h
  rw [readAsDataURL] at hd
  simp [String.data_append] at hd

theorem sortRel_newest :
    sortRel "newest" = fun a b : Clip => b.createdAt ≤ a.createdAt := by
  funext a b
  simp [sortRel]

theorem sortRel_of_ne {s : String} (hs : s ≠ "newest") :
    sortRel s = fun a b : Clip => a.createdAt ≤ b.createdAt := by
  funext a b
  simp [sortRel, hs]

/-- C2: the view derivation sorts by `createdAt` — descending for
`sortOrder = "newest"`, ascending for any other value — and on three
clips with `createdAt` values `t1 < t2 < t3` it yields `[t3, t2, t1]`
(newest first) respectively `[t1, t2, t3]`. -/
theorem applySort_by_createdAt (clips : List Clip) (s : String)
    (hs : s ≠ "newest") (c1 c2 c3 : Clip)
    (h12 : c1.createdAt < c2.createdAt) (h23 : c2.createdAt < c3.createdAt) :
    List.Sorted (fun a b : Clip => b.createdAt ≤ a.createdAt)
      (applySort "newest" clips) ∧
    List.Sorted (fun a b : Clip => a.createdAt ≤ b.createdAt)
      (applySort s clips) ∧
    applySort "newest" [c1, c2, c3] = [c3, c2, c1] ∧
    applySort s [c1, c2, c3] = [c1, c2, c3] := by
  have h13 : c1.createdAt < c3.createdAt := Nat.lt_trans h12 h23
  refine ⟨?_, ?_, ?_, ?_⟩
  · rw [← sortRel_newest]
    exact List.sorted_insertionSort (sortRel "newest") clips
  · rw [← sortRel_of_ne hs]
    exact List.sorted_insertionSort (sortRel s) clips
  · simp [applySort, sortRel, Nat.not_le.mpr h12, Nat.not_le.mpr h23,
      Nat.not_le.mpr h13]
  · simp [applySort, sortRel, hs, Nat.le_of_lt h12, Nat.le_of_lt h23]

/-- C2 witness: on the three sample clips (createdAt 10 < 20 < 30) the
`"newest"` order is `[imageClip, taggedClip, helloClip]` and the
`"oldest"` order is `[helloClip, taggedClip, imageClip]`. -/
theorem applySort_by_createdAt_witness :
    applySort "newest" [helloClip, taggedClip, imageClip] =
      [imageClip, taggedClip, helloClip] ∧
    applySort "oldest" [helloClip, taggedClip, imageClip] =
      [helloClip, taggedClip, imageClip] := by
  have h := applySort_by_createdAt [] "oldest" (by decide) helloClip
    taggedClip imageClip (by decide) (by decide)
  exact ⟨h.2.2.1, h.2.2.2⟩

theorem saveAll_clips_length (now : Nat) :
    ∀ (ds : List ClipData) (store : Store),
      (saveAll store now ds).clips.length = store.clips.length + ds.length
  | [], store => rfl
  | d :: ds, store => by
    rw [show saveAll store now (d :: ds) =
          saveAll (saveClip store now d).1 now ds from rfl,
      saveAll_clips_length now ds]
    simp [saveClip]
    omega

/-- C6: after saving any N records into a fresh store, the derived view
with empty search text, no category filter and the default sort order
(`"newest"`) is a permutation of the reloaded record set — the two
filter steps are the identity and the sort only reorders — and that
record set has exactly N records, so nothing is duplicated or lost. -/
theorem deriveView_roundtrip (ds : List ClipData) (now : Nat) :
    List.Perm
      (deriveView "" "" "newest" (getAllClips (saveAll emptyStore now ds)))
      (getAllClips (saveAll emptyStore now ds)) ∧
    (getAllClips (saveAll emptyStore now ds)).length = ds.length := by
  constructor
  · rw [show deriveView "" "" "newest"
          (getAllClips (saveAll emptyStore now ds)) =
        applySort "newest" (getAllClips (saveAll emptyStore now ds)) from rfl]
    exact List.perm_insertionSort (sortRel "newest") _
  · rw [show getAllClips (saveAll emptyStore now ds) =
          (saveAll emptyStore now ds).clips from rfl,
      saveAll_clips_length now ds]
    simp [emptyStore]

/-- C3: a text save whose content input trims to empty is rejected by
validation before any store call — the store is unchanged and a
validation error is surfaced — and an image save with no file selected
likewise aborts with the store unchanged. -/
theorem save_validation_rejects (store : Store) (now : Nat)
    (ci ti mi ti2 mi2 : String) (hci : jsTrim ci = "") :
    (saveTextClip store now ci ti mi).1 = store ∧
    (saveTextClip store now ci ti mi).2 =
      SaveOutcome.validationError "Please enter some text" ∧
    (saveImageClip store now none ti2 mi2).1 = store ∧
    (saveImageClip store now none ti2 mi2).2 =
      SaveOutcome.validationError "Please select an image file" := by
  refine ⟨?_, ?_, rfl, rfl⟩ <;> simp [saveTextClip, hci]

/-- C3 witness: a whitespace-only content input and an empty file
selection both leave a one-clip store untouched. -/
theorem save_validation_rejects_witness :
    (saveTextClip { nextId := 2, clips := [helloClip] } 5 "   " "a,b" "m").1 =
      { nextId := 2, clips := [helloClip] } ∧
    (saveTextClip { nextId := 2, clips := [helloClip] } 5 "   " "a,b" "m").2 =
      SaveOutcome.validationError "Please enter some text" ∧
    (saveImageClip { nextId := 2, clips := [helloClip] } 5 none "a,b" "m").1 =
      { nextId := 2, clips := [helloClip] } ∧
    (saveImageClip { nextId := 2, clips := [helloClip] } 5 none "a,b" "m").2 =
      SaveOutcome.validationError "Please select an image file" :=
  save_validation_rejects { nextId := 2, clips := [helloClip] } 5
    "   " "a,b" "m" "a,b" "m" (by decide)

/-- C5: deleting an id removes every record with that id — a subsequent
`getAllClips` excludes it — and deleting an id not present in the store
is a no-op that completes without any error. -/
theorem deleteClip_removes (store : Store) (i j : Nat)
    (h : i ∉ store.clips.map Clip.id) :
    (∀ c ∈ getAllClips (deleteClip store j), c.id ≠ j) ∧
    deleteClip store i = store := by
  constructor
  · intro c hc
    have := (List.mem_filter.mp hc).2
    simpa using this
  · have hall : ∀ c ∈ store.clips, (!(c.id == i)) = true := by
      intro c hc
      simp only [Bool.not_eq_true']
      exact beq_eq_false_iff_ne.mpr fun he => h (List.mem_map.mpr ⟨c, hc, he⟩)
    simp [deleteClip, List.filter_eq_self.mpr hall]

/-- C5 witness: deleting id 1 from the two-clip store removes it, and
deleting the absent id 99 leaves the store intact. -/
theorem deleteClip_removes_witness :
    (∀ c ∈ getAllClips
        (deleteClip { nextId := 4, clips := [helloClip, imageClip] } 1),
      c.id ≠ 1) ∧
    deleteClip { nextId := 4, clips := [helloClip, imageClip] } 99 =
      { nextId := 4, clips := [helloClip, imageClip] } := by
  have h := deleteClip_removes { nextId := 4, clips := [helloClip, imageClip] }
    99 1 (by decide)
  exact h

/-- C8: `saveClip` returns the store-assigned id of the new record and
stamps its `createdAt` and `updatedAt` with the insertion time; the id
returned by the next save is strictly larger, and when the stored ids
are distinct and below the key generator, they stay so after a save —
successive saves hand out unique, monotonically increasing ids. -/
theorem saveClip_ids (store : Store) (now now2 : Nat) (d d2 : ClipData)
    (hnodup : (store.clips.map Clip.id).Nodup)
    (hbound : ∀ c ∈ store.clips, c.id < store.nextId) :
    (saveClip store now d).2 = store.nextId ∧
    ((saveClip store now d).1.clips.map Clip.createdAt =
      store.clips.map Clip.createdAt ++ [now]) ∧
    ((saveClip store now d).1.clips.map Clip.updatedAt =
      store.clips.map Clip.updatedAt ++ [now]) ∧
    (saveClip store now d).2 < (saveClip (saveClip store now d).1 now2 d2).2 ∧
    ((saveClip store now d).1.clips.map Clip.id).Nodup ∧
    (∀ c ∈ (saveClip store now d).1.clips,
      c.id < (saveClip store now d).1.nextId) := by
  refine ⟨rfl, by simp [saveClip], by simp [saveClip],
    Nat.lt_succ_self _, ?_, ?_⟩
  · rw [show (saveClip store now d).1.clips.map Clip.id =
        store.clips.map Clip.id ++ [store.nextId] by simp [saveClip]]
    rw [List.nodup_append]
    refine ⟨hnodup, List.nodup_singleton _, ?_⟩
    intro a ha hb
    rw [List.mem_singleton] at hb
    subst hb
    obtain ⟨c, hc, hce⟩ := List.mem_map.mp ha
    exact absurd hce (Nat.ne_of_lt (hbound c hc))
  · intro c hc
    simp only [saveClip, List.mem_append, List.mem_singleton] at hc
    rcases hc with h | h
    · exact Nat.lt_trans (hbound c h) (Nat.lt_succ_self _)
    · subst h
      exact Nat.lt_succ_self _

/-- C8 witness: saving into the two-clip store returns id 4, stamps the
timestamps with the insertion time 40, and the follow-up save returns a
strictly larger id. -/
theorem saveClip_ids_witness :
    (saveClip { nextId := 4, clips := [helloClip, imageClip] } 40
        { type := "text", content := "x", tags := [], memo := none,
          filename := none, filesize := none, mimeType := none }).2 = 4 ∧
    ((saveClip { nextId := 4, clips := [helloClip, imageClip] } 40
        { type := "text", content := "x", tags := [], memo := none,
          filename := none, filesize := none, mimeType := none }).1.clips.map
      Clip.createdAt = [helloClip, imageClip].map Clip.createdAt ++ [40]) ∧
    ((saveClip { nextId := 4, clips := [helloClip, imageClip] } 40
        { type := "text", content := "x", tags := [], memo := none,
          filename := none, filesize := none, mimeType := none }).1.clips.map
      Clip.updatedAt = [helloClip, imageClip].map Clip.updatedAt ++ [40]) ∧
    (saveClip { nextId := 4, clips := [helloClip, imageClip] } 40
        { type := "text", content := "x", tags := [], memo := none,
          filename := none, filesize := none, mimeType := none }).2 <
      (saveClip (saveClip { nextId := 4, clips := [helloClip, imageClip] } 40
          { type := "text", content := "x", tags := [], memo := none,
            filename := none, filesize := none, mimeType := none }).1 41
        { type := "text", content := "y", tags := [], memo := none,
          filename := none, filesize := none, mimeType := none }).2 ∧
    ((saveClip { nextId := 4, clips := [helloClip, imageClip] } 40
        { type := "text", content := "x", tags := [], memo := none,
          filename := none, filesize := none, mimeType := none }).1.clips.map
      Clip.id).Nodup ∧
    (∀ c ∈ (saveClip { nextId := 4, clips := [helloClip, imageClip] } 40
        { type := "text", content := "x", tags := [], memo := none,
          filename := none, filesize := none, mimeType := none }).1.clips,
      c.id < (saveClip { nextId := 4, clips := [helloClip, imageClip] } 40
        { type := "text", content := "x", tags := [], memo := none,
          filename := none, filesize := none, mimeType := none }).1.nextId) :=
  saveClip_ids { nextId := 4, clips := [helloClip, imageClip] } 40 41
    { type := "text", content := "x", tags := [], memo := none,
      filename := none, filesize := none, mimeType := none }
    { type := "text", content := "y", tags := [], memo := none,
      filename := none, filesize := none, mimeType := none }
    (by decide) (by decide)

/-- C4 counterexample: the claim "every clip record that reaches the
store via any save path has a non-empty content field" fails on the
dropped-file path — dropping an empty file named `a.txt` (classified as
text by its extension) stores a clip whose `content` is `""`, with no
validation. -/
theorem dropped_empty_file_stores_empty_content :
    ((processDroppedFile emptyStore 0
        { name := "a.txt", mime := "", bytes := [] }).1.clips.map
      Clip.content = [""]) ∧
    (processDroppedFile emptyStore 0
        { name := "a.txt", mime := "", bytes := [] }).1.clips.length = 1 := by
  decide

/-- C4 (amended): every clip added to the store by the text modal or
the image modal has non-empty content (the text path is guarded by the
trimmed-content validation, the image path stores a data URI), and
every clip added by dropped-file ingestion of an image file has
non-empty data-URI content; a dropped text file stores the file's raw
text, which is empty exactly when the file is empty. -/
theorem saved_clips_content_present (store : Store) (now : Nat)
    (ci ti mi ti2 mi2 : String) (f g : JsFile)
    (himg : jsStartsWith g.mime "image/" = true) :
    (∀ c ∈ (saveTextClip store now ci ti mi).1.clips,
      c ∈ store.clips ∨ c.content ≠ "") ∧
    (∀ c ∈ (saveImageClip store now (some f) ti2 mi2).1.clips,
      c ∈ store.clips ∨ c.content ≠ "") ∧
    (∀ c ∈ (processDroppedFile store now g).1.clips,
      c ∈ store.clips ∨ c.content ≠ "") ∧
    (∀ c ∈ (processDroppedFile store now g).1.clips,
      c ∈ store.clips ∨ c.content = readAsDataURL g) := by
  refine ⟨?_, ?_, ?_, ?_⟩
  · intro c hc
    by_cases h : jsTrim ci == ""
    · left
      simpa [saveTextClip, h] using hc
    · simp only [saveTextClip, h, Bool.false_eq_true, if_false, saveClip,
        List.mem_append, List.mem_singleton] at hc
      rcases hc with hmem | hmem
      · exact Or.inl hmem
      · right
        subst hmem
        simpa using (beq_eq_false_iff_ne.mp (Bool.of_not_eq_true h))
  · intro c hc
    simp only [saveImageClip, saveClip, List.mem_append,
      List.mem_singleton] at hc
    rcases hc with hmem | hmem
    · exact Or.inl hmem
    · right
      subst hmem
      exact readAsDataURL_ne_empty f
  · intro c hc
    simp only [processDroppedFile, himg, if_true, saveClip, List.mem_append,
      List.mem_singleton] at hc
    rcases hc with hmem | hmem
    · exact Or.inl hmem
    · right
      subst hmem
      exact readAsDataURL_ne_empty g
  · intro c hc
    simp only [processDroppedFile, himg, if_true, saveClip, List.mem_append,
      List.mem_singleton] at hc
    rcases hc with hmem | hmem
    · exact Or.inl hmem
    · right
      subst hmem
      rfl

/-- C4 witness: one run of each amended save path on the one-clip store
with a concrete image file. -/
theorem saved_clips_content_present_witness :
    (∀ c ∈ (saveTextClip { nextId := 2, clips := [helloClip] } 7
        " hi " "a" "m").1.clips,
      c ∈ [helloClip] ∨ c.content ≠ "") ∧
    (∀ c ∈ (saveImageClip { nextId := 2, clips := [helloClip] } 7
        (some { name := "p.png", mime := "image/png", bytes := [1, 2, 3] })
        "a" "m").1.clips,
      c ∈ [helloClip] ∨ c.content ≠ "") ∧
    (∀ c ∈ (processDroppedFile { nextId := 2, clips := [helloClip] } 7
        { name := "p.png", mime := "image/png", bytes := [1, 2, 3] }).1.clips,
      c ∈ [helloClip] ∨ c.content ≠ "") ∧
    (∀ c ∈ (processDroppedFile { nextId := 2, clips := [helloClip] } 7
        { name := "p.png", mime := "image/png", bytes := [1, 2, 3] }).1.clips,
      c ∈ [helloClip] ∨ c.content = readAsDataURL
        { name := "p.png", mime := "image/png", bytes := [1, 2, 3] }) :=
  saved_clips_content_present { nextId := 2, clips := [helloClip] } 7
    " hi " "a" "m" "a" "m"
    { name := "p.png", mime := "image/png", bytes := [1, 2, 3] }
    { name := "p.png", mime := "image/png", bytes := [1, 2, 3] }
    (by decide)

theorem handleDrop_fst (now : Nat) :
    ∀ (files : List JsFile) (store : Store) (outs : List DropOutcome),
      (files.foldl
        (fun acc file =>
          let r := processDroppedFile acc.1 now file
          (r.1, acc.2 ++ [r.2]))
        (store, outs)).1 =
      files.foldl (fun st file => (processDroppedFile st now file).1) store
  | [], _, _ => rfl
  | _ :: files, _store, _outs => handleDrop_fst now files _ _

/-- C7: `processDroppedFile` classifies a dropped file by MIME
type/extension — an `image/*` MIME type yields a saved `image` clip,
otherwise a `text/*` or `application/json` MIME type or a `.txt`/`.md`
extension yields a saved `text` clip, and any other file is rejected
with a user-visible error while the store is left untouched; and a
rejected file in a dropped batch does not abort the processing of the
other files. -/
theorem processDroppedFile_classification (store : Store) (now : Nat)
    (f : JsFile) (fs1 fs2 : List JsFile) :
    (jsStartsWith f.mime "image/" = true →
      (processDroppedFile store now f).1.clips.map Clip.type =
        store.clips.map Clip.type ++ ["image"] ∧
      (processDroppedFile store now f).2 =
        DropOutcome.savedImage store.nextId) ∧
    (jsStartsWith f.mime "image/" = false →
     (jsStartsWith f.mime "text/" || f.mime == "application/json" ||
      jsEndsWith f.name ".txt" || jsEndsWith f.name ".md") = true →
      (processDroppedFile store now f).1.clips.map Clip.type =
        store.clips.map Clip.type ++ ["text"] ∧
      (processDroppedFile store now f).2 =
        DropOutcome.savedText store.nextId) ∧
    (jsStartsWith f.mime "image/" = false →
     (jsStartsWith f.mime "text/" || f.mime == "application/json" ||
      jsEndsWith f.name ".txt" || jsEndsWith f.name ".md") = false →
      (processDroppedFile store now f).1 = store ∧
      (processDroppedFile store now f).2 = DropOutcome.unsupported
        ("Unsupported file type: " ++
          (if f.mime == "" then "unknown" else f.mime))) ∧
    (jsStartsWith f.mime "image/" = false →
     (jsStartsWith f.mime "text/" || f.mime == "application/json" ||
      jsEndsWith f.name ".txt" || jsEndsWith f.name ".md") = false →
      (handleDrop store now (fs1 ++ f :: fs2)).1 =
        (handleDrop store now (fs1 ++ fs2)).1) := by
  refine ⟨?_, ?_, ?_, ?_⟩
  · intro himg
    constructor <;> simp [processDroppedFile, himg, saveClip]
  · intro himg htxt
    constructor <;> simp [processDroppedFile, himg, htxt, saveClip]
  · intro himg htxt
    constructor <;> simp [processDroppedFile, himg, htxt]
  · intro himg htxt
    have hskip : ∀ st : Store, (processDroppedFile st now f).1 = st := by
      intro st
      simp [processDroppedFile, himg, htxt]
    rw [handleDrop, handleDrop, handleDrop_fst, handleDrop_fst,
      List.foldl_append, List.foldl_append]
    rw [show List.foldl (fun st file => (processDroppedFile st now file).1)
          (List.foldl (fun st file => (processDroppedFile st now file).1)
            store fs1) (f :: fs2) =
        List.foldl (fun st file => (processDroppedFile st now file).1)
          (processDroppedFile (List.foldl
            (fun st file => (processDroppedFile st now file).1) store fs1)
            now f).1 fs2 from rfl]
    rw [hskip]

/-- C7 witness: in a batch of three dropped files — an image, an
unsupported archive, a markdown file — the image is saved as `image`,
the markdown as `text`, the archive is rejected with its MIME type in
the error and does not stop the markdown behind it from being saved. -/
theorem processDroppedFile_classification_witness :
    ((processDroppedFile emptyStore 0
        { name := "p.png", mime := "image/png", bytes := [1] }).1.clips.map
      Clip.type = [] ++ ["image"] ∧
     (processDroppedFile emptyStore 0
        { name := "p.png", mime := "image/png", bytes := [1] }).2 =
      DropOutcome.savedImage 1) ∧
    ((processDroppedFile emptyStore 0
        { name := "n.md", mime := "", bytes := [104, 105] }).1.clips.map
      Clip.type = [] ++ ["text"] ∧
     (processDroppedFile emptyStore 0
        { name := "n.md", mime := "", bytes := [104, 105] }).2 =
      DropOutcome.savedText 1) ∧
    ((processDroppedFile emptyStore 0
        { name := "a.zip", mime := "application/zip", bytes := [1] }).1 =
      emptyStore ∧
     (processDroppedFile emptyStore 0
        { name := "a.zip", mime := "application/zip", bytes := [1] }).2 =
      DropOutcome.unsupported "Unsupported file type: application/zip") ∧
    (handleDrop emptyStore 0
        [{ name := "p.png", mime := "image/png", bytes := [1] },
         { name := "a.zip", mime := "application/zip", bytes := [1] },
         { name := "n.md", mime := "", bytes := [104, 105] }]).1 =
      (handleDrop emptyStore 0
        [{ name := "p.png", mime := "image/png", bytes := [1] },
         { name := "n.md", mime := "", bytes := [104, 105] }]).1 := by
  have h1 := (processDroppedFile_classification emptyStore 0
    { name := "p.png", mime := "image/png", bytes := [1] } [] []).1
    (by decide)
  have h2 := (processDroppedFile_classification emptyStore 0
    { name := "n.md", mime := "", bytes := [104, 105] } [] []).2.1
    (by decide) (by decide)
  have h3 := (processDroppedFile_classification emptyStore 0
    { name := "a.zip", mime := "application/zip", bytes := [1] } [] []).2.2.1
    (by decide) (by decide)
  have h4 := (processDroppedFile_classification emptyStore 0
    { name := "a.zip", mime := "application/zip", bytes := [1] }
    [{ name := "p.png", mime := "image/png", bytes := [1] }]
    [{ name := "n.md", mime := "", bytes := [104, 105] }]).2.2.2
    (by decide) (by decide)
  exact ⟨h1, h2, by simpa using h3, h4⟩

end Pastecase
